import Mathlib

/-!
Verification of the risk-intake bot (`withnotifications.py`).

The Python source is shallowly embedded below: pure helpers become Lean
functions on `Int` / `String`, the per-user `context.user_data` dict becomes
an explicit `Draft` structure with `Option` fields (a missing dict key is
`none`), message handlers become state-transition functions, and the SQLite
calls are modelled by explicit record lists / relational contracts.
-/

/-! ## Scoring module (lines 34-80 of the source) -/

/-- Source dict `PROBABILITY_MAPPING = {1:10, 2:15, 3:27, 4:47, 5:60}`;
keys outside 1..5 are absent (`none`). -/
def PROBABILITY_MAPPING (k : Nat) : Option Int :=
  match k with
  | 1 => some 10
  | 2 => some 15
  | 3 => some 27
  | 4 => some 47
  | 5 => some 60
  | _ => none

/-- Source `get_cost_score` (lines 43-54): step function on cost impact. -/
def get_cost_score (cost_impact : Int) : Int :=
  if cost_impact < 100 then 1
  else if cost_impact < 200 then 2
  else if cost_impact < 500 then 3
  else if cost_impact < 1000 then 4
  else 5

/-- Source `get_schedule_score` (lines 56-67): step function on schedule impact. -/
def get_schedule_score (schedule_impact : Int) : Int :=
  if schedule_impact < 14 then 1
  else if schedule_impact < 45 then 2
  else if schedule_impact < 90 then 3
  else if schedule_impact < 150 then 4
  else 5

/-- Source `get_probability_score` (lines 69-80): step function on probability. -/
def get_probability_score (probability : Int) : Int :=
  if probability < 10 then 1
  else if probability < 20 then 2
  else if probability < 50 then 3
  else if probability < 75 then 4
  else 5

/-! ## Number extraction and triple parsing (lines 354-361) -/

/-- Scanner state while reproducing `re.findall` of the pattern -?\d+ over
the text:
`acc` holds completed numbers in order, `cur` an in-progress number
(sign flag and accumulated magnitude), `pendingMinus` a minus sign seen
immediately before the current position with no digits consumed yet. -/
structure ScanSt where
  acc : List Int
  cur : Option (Bool × Nat)
  pendingMinus : Bool

/-- Close the in-progress number, if any. -/
def flushCur (s : ScanSt) : List Int :=
  match s.cur with
  | none => s.acc
  | some (sg, v) => s.acc ++ [if sg then -(v : Int) else (v : Int)]

/-- One character of the scan for the pattern -?\d+ : a digit extends the
current number (starting one if necessary, consuming a directly preceding
minus sign); a minus closes any current number and becomes pending; any
other character closes the current number and clears the pending minus. -/
def scanChar (s : ScanSt) (c : Char) : ScanSt :=
  if c.isDigit then
    let d : Nat := c.toNat - '0'.toNat
    match s.cur with
    | some (sg, v) => { s with cur := some (sg, v * 10 + d) }
    | none => { acc := s.acc, cur := some (s.pendingMinus, d), pendingMinus := false }
  else if c = '-' then
    { acc := flushCur s, cur := none, pendingMinus := true }
  else
    { acc := flushCur s, cur := none, pendingMinus := false }

/-- Embedding of `re.findall` of the pattern -?\d+ over the text, followed
by `int(...)` on each
match: every maximal digit run, with a directly preceding minus sign when
present, read as an integer, in order of occurrence. -/
def findNumbers (text : String) : List Int :=
  flushCur (text.data.foldl scanChar { acc := [], cur := none, pendingMinus := false })

/-- Source `parse_three_values` (lines 354-361): the first three extracted
integers, or `none` (the `ValueError`) when fewer than three are present. -/
def parse_three_values (text : String) : Option (Int × Int × Int) :=
  match findNumbers text with
  | n0 :: n1 :: n2 :: _ => some (n0, n1, n2)
  | _ => none

/-! ## Session store: the per-user `context.user_data` dict

Each recognized key becomes an `Option` field; a key absent from the dict is
`none`, `dict.pop` sets the field back to `none`, and `.get(key, default)`
becomes `Option.getD`. -/

structure Draft where
  phase : Option String := none
  object : Option String := none
  category : Option String := none
  description : Option String := none
  impact_schedule_min : Option Int := none
  impact_schedule_most_likely : Option Int := none
  impact_schedule_max : Option Int := none
  impact_cost_min : Option Int := none
  impact_cost_most_likely : Option Int := none
  impact_cost_max : Option Int := none
  impact_schedule_min_re : Option Int := none
  impact_schedule_most_likely_re : Option Int := none
  impact_schedule_max_re : Option Int := none
  impact_cost_min_re : Option Int := none
  impact_cost_most_likely_re : Option Int := none
  impact_cost_max_re : Option Int := none
  probability : Option Int := none
  probability_re : Option Int := none
  risk_score : Option Int := none
  timeline : Option String := none
  mitigation : Option String := none
  expected_result : Option String := none
  reevaluation_needed : Option Int := none
  needs_schedule_evaluation : Option Int := none
  needs_cost_evaluation : Option Int := none
  needs_schedule_evaluation_re : Option Int := none
  needs_cost_evaluation_re : Option Int := none
  awaiting_custom_phase : Option Bool := none
  awaiting_custom_object : Option Bool := none
  awaiting_custom_category : Option Bool := none
  awaiting_description : Option Bool := none
  awaiting_schedule_values : Option Bool := none
  awaiting_cost_values : Option Bool := none
  awaiting_custom_probability : Option Bool := none
  awaiting_timeline : Option Bool := none
  awaiting_mitigation : Option Bool := none
  awaiting_expected_result : Option Bool := none
  awaiting_schedule_values_re : Option Bool := none
  awaiting_cost_values_re : Option Bool := none
  awaiting_custom_probability_re : Option Bool := none
deriving DecidableEq, Repr

/-! ## Rendering model

A sent or edited message: prompt text plus an ordered list of inline-keyboard
buttons as (label, callback token) pairs. -/

structure Render where
  prompt : String
  options : List (String × String)
deriving DecidableEq, Repr

/-- Source `create_back_keyboard`: a single back button. -/
def create_back_keyboard (back_data : String) : List (String × String) :=
  [("🔙 Вернуться на предыдущий шаг", back_data)]

/-- Python `f"{x}"` on a value that may be `None`. -/
def optStr (o : Option String) : String := o.getD "None"

/-- Source `PHASES` (line 198). -/
def PHASES : List String := ["1", "2", "3", "4", "5", "Песцовое", "КПРA"]

/-- Source `OBJECTS` (line 199). -/
def OBJECTS : List String :=
  ["Скважины", "Кустовые площадки", "Площадочные объекты", "Линейная часть", "Другое"]

/-- Source `CATEGORIES` (lines 200-201). -/
def CATEGORIES : List String :=
  ["Проектное управление", "Стоимостной инжиниринг", "ГиР", "Операционная деятельность",
   "Строительство", "Закупки", "Инжиниринг", "Бурение", "ПБ"]

/-- Source `start` reached from a callback (lines 800-814): the main menu.  It only
renders (plus a subscription upsert outside the draft); it never touches
`context.user_data`. -/
def startRender (subscribed : Bool) : Render :=
  { prompt := "Добро пожалов в Ежедневник рисков проекта!",
    options :=
      [("📢 Сообщить риск", "submit_risk"),
       ("🔍 Просмотреть риски/мероприятия", "view_risks_list"),
       ("📊 Отчёт по рискам", "report"),
       ("💾 Экспорт в Excel", "export_excel"),
       ((if subscribed then "🔕 Отписаться" else "🔔 Подписаться"), "toggle_subscription")] }

/-- Source `submit_risk_start` (lines 817-824): phase selection. -/
def submitRiskStartRender : Render :=
  { prompt := "Выберите фазу проекта или введите свою:",
    options := (PHASES.map fun p => (p, "phase_" ++ p)) ++
      [("📝 Ввести свою фазу", "custom_phase"), ("🔙 Вернуться в меню", "back_to_menu")] }

/-- Object selection rendering (lines 845-850, 859-864, 1921-1926). -/
def objectSelectionRender (phase : Option String) : Render :=
  { prompt := "Фаза: " ++ optStr phase ++ "\nВыберите объект или введите свой:",
    options := (OBJECTS.map fun o => (o, "object_" ++ o)) ++
      [("📝 Ввести свой объект", "custom_object"),
       ("🔙 Вернуться к фазе", "back_to_phase_selection")] }

/-- Category selection rendering (lines 885-892, 901-908, 1940-1947). -/
def categorySelectionRender (obj : Option String) : Render :=
  { prompt := "Объект: " ++ optStr obj ++
      "\nВыберите функциональное направление риска или введите свой:",
    options := (CATEGORIES.map fun c => (c, "cat_" ++ c)) ++
      [("📝 Ввести свое функциональное направление риска", "custom_category"),
       ("🔙 Вернуться к объекту", "back_to_object_selection")] }

/-- Description prompt (lines 929-934, 943-948, 1955-1959). -/
def descriptionRender (cat : Option String) : Render :=
  { prompt := "Категория: " ++ optStr cat ++ "\nОпишите риск:",
    options := create_back_keyboard "back_to_category_selection" }

/-- Option rows of the schedule-impact decision step. -/
def scheduleChoiceOptions : List (String × String) :=
  [("Не влияет на сроки", "no_impact_schedule"),
   ("Оценить влияние на сроки", "evaluate_schedule_impact"),
   ("Запросить оценку (Повещенко С., Гиренко В.)", "request_schedule_evaluation"),
   ("🔙 Вернуться к описанию", "back_to_description")]

/-- Forward rendering of the schedule-impact step, from `get_description`
(lines 960-972): the prompt carries the unit text ", в днях". -/
def scheduleChoiceRenderForward : Render :=
  { prompt := "Влияние на сроки (оценка без мероприятий, в днях):\nВыберите вариант:",
    options := scheduleChoiceOptions }

/-- Back rendering of the schedule-impact step, from the
`back_to_schedule_impact` branch of `handle_back` (lines 1970-1982). -/
def backScheduleChoiceRender : Render :=
  { prompt := "Влияние на сроки (оценка без мероприятий):\nВыберите вариант:",
    options := scheduleChoiceOptions }

/-- Option rows of the cost-impact decision step. -/
def costChoiceOptions : List (String × String) :=
  [("Не влияет на стоимость", "no_impact_cost"),
   ("Оценить влияние на стоимость", "evaluate_cost_impact"),
   ("Запросить оценку (Давыдова Е., Борисов А.)", "request_cost_evaluation"),
   ("🔙 Вернуться к срокам", "back_to_schedule_impact")]

/-- Cost-impact step as rendered by `no_impact_schedule` and
`request_schedule_evaluation` (lines 986-997, 1012-1023): carries ", в млн.руб.". -/
def costChoiceRenderWithUnits : Render :=
  { prompt := "Влияние на стоимость (оценка без мероприятий, в млн.руб.):\nВыберите вариант:",
    options := costChoiceOptions }

/-- Cost-impact step as rendered by `handle_schedule_values` (lines 1064-1076). -/
def costChoiceRenderPlain : Render :=
  { prompt := "Влияние на стоимость (оценка без мероприятий):\nВыберите вариант:",
    options := costChoiceOptions }

/-- Cost-impact step as rendered by the `back_to_cost_impact` branch of
`handle_back` (lines 1992-2004). -/
def backCostChoiceRender : Render :=
  { prompt := "Влияние на стоимость (оценка без мероприятий):\nВыберите вариант:",
    options := costChoiceOptions }

/-- Probability step prompt (first pass). -/
def probabilityPrompt : String := "Оцените вероятность возникновения риска или введите свою:"

/-- Probability band buttons on the forward path (`no_impact_cost`,
`request_cost_evaluation`, `handle_cost_values`, lines 1096-1104 etc.). -/
def probabilityOptionsForward : List (String × String) :=
  [("<10%", "prob_1"), ("10-20%", "prob_2"), ("20-50%", "prob_3"),
   ("50-75%", "prob_4"), (">75%", "prob_5"),
   ("📝 Ввести свою вероятность", "custom_probability"),
   ("🔙 Вернуться к стоимости", "back_to_cost_impact")]

/-- Probability band buttons in the `back_to_probability` branch of
`handle_back` (lines 2011-2019); band 4 is labelled "60-75%" there. -/
def probabilityOptionsBack : List (String × String) :=
  [("<10%", "prob_1"), ("10-20%", "prob_2"), ("20-50%", "prob_3"),
   ("60-75%", "prob_4"), (">75%", "prob_5"),
   ("📝 Ввести свою вероятность", "custom_probability"),
   ("🔙 Вернуться к стоимости", "back_to_cost_impact")]

/-- Forward rendering of the probability step. -/
def probabilityRenderForward : Render :=
  { prompt := probabilityPrompt, options := probabilityOptionsForward }

/-- Back rendering of the probability step (lines 2006-2023). -/
def backProbabilityRender : Render :=
  { prompt := probabilityPrompt, options := probabilityOptionsBack }

/-- Timeline prompt (lines 1248-1251, 2030-2033). -/
def timelineRender : Render :=
  { prompt := "Укажите примерный период реализации риска:",
    options := create_back_keyboard "back_to_probability" }

/-- Mitigation-path decision rendering (lines 1267-1279, 2041-2053). -/
def mitigationChoiceRender : Render :=
  { prompt := "Выберите действие:",
    options :=
      [("Добавить мероприятие по митигации и внести оценку", "add_mitigation_with_evaluation"),
       ("Заполнить мероприятие по митигации без переоценки", "add_mitigation_without_evaluation"),
       ("🔙 Вернуться к сроку", "back_to_timeline")] }

/-- Mitigation free-text prompt (lines 1291-1294, 2060-2063). -/
def mitigationTextRender : Render :=
  { prompt := "Введите мероприятие по митигации риска:",
    options := create_back_keyboard "back_to_mitigation_choice" }

/-- Expected-result free-text prompt (lines 1320-1323, 2071-2074). -/
def expectedResultRender : Render :=
  { prompt := "Ожидаемый результат от мероприятия (опишите текстом):",
    options := create_back_keyboard "back_to_mitigation" }

/-- Re-evaluation schedule-impact rendering (lines 2085-2097). -/
def backScheduleChoiceRenderRe : Render :=
  { prompt := "Влияние на сроки (оценка с мероприятиями):\nВыберите вариант:",
    options :=
      [("Не влияет на сроки", "no_impact_schedule_re"),
       ("Оценить влияние на сроки", "evaluate_schedule_impact_re"),
       ("Запросить оценку (Повещенко С., Гиренко В.)", "request_schedule_evaluation_re"),
       ("🔙 Вернуться к выбору", "back_to_mitigation_result")] }

/-- Re-evaluation cost-impact rendering (lines 2107-2119). -/
def backCostChoiceRenderRe : Render :=
  { prompt := "Влияние на стоимость (оценка с мероприятиями):\nВыберите вариант:",
    options :=
      [("Не влияет на стоимость", "no_impact_cost_re"),
       ("Оценить влияние на стоимость", "evaluate_cost_impact_re"),
       ("Запросить оценку (Давыдова Е., Борисов А.)", "request_cost_evaluation_re"),
       ("🔙 Вернуться к срокам", "back_to_schedule_impact_re")] }

/-- Re-evaluation probability rendering (lines 2126-2138). -/
def backProbabilityRenderRe : Render :=
  { prompt := "Оцените вероятность возникновения риска после мероприятий или введите свою:",
    options :=
      [("<10%", "prob_re_1"), ("10-20%", "prob_re_2"), ("20-50%", "prob_re_3"),
       ("50-75%", "prob_re_4"), (">75%", "prob_re_5"),
       ("📝 Ввести свою вероятность", "custom_probability_re"),
       ("🔙 Вернуться к стоимости", "back_to_cost_impact_re")] }

/-! ## Conversation step handlers (free-text and button transitions) -/

/-- Result of delivering one user input to a step handler. -/
inductive StepResult where
  | ignored
  | rejected (msg : String)
  | advanced (r : Render)
deriving DecidableEq, Repr

/-- Validation message shown when `parse_three_values` raises (the
`ValueError` text followed by the re-entry request, lines 1077-1082). -/
def tripleFormatErrorMsg : String :=
  "Неверный формат. Введите три числа.\nПожалуйста, введите три числа, разделенные пробелом, запятой или новой строкой:"

/-- Validation message for a triple violating min ≤ most-likely ≤ max
(lines 1051-1055). -/
def tripleOrderErrorMsg : String :=
  "Ошибка: Значения должны быть в порядке возрастания (мин <= вероятно <= макс).\nПожалуйста, введите значения снова:"

/-- Source `get_description` (lines 951-972): store the free-text description
and advance to the schedule-impact decision. -/
def get_description (d : Draft) (text : String) : Draft × StepResult :=
  if !(d.awaiting_description.getD false) then (d, .ignored)
  else ({ d with description := some text, awaiting_description := some false },
        .advanced scheduleChoiceRenderForward)

/-- Source `handle_schedule_values` (lines 1041-1082): parse three integers,
validate the ordering, store the schedule triple or re-prompt. -/
def handle_schedule_values (d : Draft) (text : String) : Draft × StepResult :=
  if !(d.awaiting_schedule_values.getD false) then (d, .ignored)
  else
    match parse_three_values text with
    | none => (d, .rejected tripleFormatErrorMsg)
    | some (min_val, most_likely_val, max_val) =>
      if ¬ (min_val ≤ most_likely_val ∧ most_likely_val ≤ max_val) then
        (d, .rejected tripleOrderErrorMsg)
      else
        ({ d with impact_schedule_min := some min_val,
                  impact_schedule_most_likely := some most_likely_val,
                  impact_schedule_max := some max_val,
                  awaiting_schedule_values := some false },
         .advanced costChoiceRenderPlain)

/-- Source `handle_cost_values` (lines 1153-1194): same shape for the cost
triple, advancing to the probability step. -/
def handle_cost_values (d : Draft) (text : String) : Draft × StepResult :=
  if !(d.awaiting_cost_values.getD false) then (d, .ignored)
  else
    match parse_three_values text with
    | none => (d, .rejected tripleFormatErrorMsg)
    | some (min_val, most_likely_val, max_val) =>
      if ¬ (min_val ≤ most_likely_val ∧ most_likely_val ≤ max_val) then
        (d, .rejected tripleOrderErrorMsg)
      else
        ({ d with impact_cost_min := some min_val,
                  impact_cost_most_likely := some most_likely_val,
                  impact_cost_max := some max_val,
                  awaiting_cost_values := some false },
         .advanced probabilityRenderForward)

/-- Source `no_impact_cost` (lines 1085-1108): zero the cost triple, clear the
deferral flag and render the probability bands. -/
def no_impact_cost (d : Draft) : Draft × Render :=
  ({ d with impact_cost_min := some 0, impact_cost_most_likely := some 0,
            impact_cost_max := some 0, needs_cost_evaluation := some 0 },
   probabilityRenderForward)

/-- Source `choose_probability` (lines 1236-1255).  The handler receives the
band number parsed from the callback token `prob_<k>` (the string split is
elided); an unknown band is answered with an alert and leaves the draft
untouched. -/
def choose_probability (d : Draft) (prob_level : Nat) : Draft × Option Render :=
  match PROBABILITY_MAPPING prob_level with
  | none => (d, none)
  | some v =>
    ({ d with probability := some v, awaiting_timeline := some true }, some timelineRender)

/-- Range-violation message of `handle_custom_probability` (lines 1214-1233). -/
def probRangeErrorMsg : String := "Пожалуйста, введите число от 0 до 100:"

/-- Source `handle_custom_probability` (lines 1208-1233).  The handler
receives the result of `int(update.message.text)` as an `Option Int`
(`none` is the `ValueError`). -/
def handle_custom_probability (d : Draft) (parsed : Option Int) : Draft × StepResult :=
  if !(d.awaiting_custom_probability.getD false) then (d, .ignored)
  else
    match parsed with
    | none => (d, .rejected probRangeErrorMsg)
    | some prob =>
      if prob < 0 ∨ prob > 100 then (d, .rejected probRangeErrorMsg)
      else ({ d with probability := some prob, awaiting_custom_probability := some false,
                     awaiting_timeline := some true },
            .advanced timelineRender)

/-! ## Persistence: `save_risk` (lines 1657-1758) -/

/-- A row of the `risks` table as inserted by `save_risk`; integer columns
take the dict defaults (0), text columns keep `None` as `none`.  The row id
is assigned by the database and not part of the insert. -/
structure RiskRecord where
  user_id : Int
  username : String
  phase : Option String
  object : Option String
  category : Option String
  description : Option String
  impact_schedule_min : Int
  impact_schedule_most_likely : Int
  impact_schedule_max : Int
  impact_cost_min : Int
  impact_cost_most_likely : Int
  impact_cost_max : Int
  impact_schedule_min_re : Int
  impact_schedule_most_likely_re : Int
  impact_schedule_max_re : Int
  impact_cost_min_re : Int
  impact_cost_most_likely_re : Int
  impact_cost_max_re : Int
  probability : Int
  probability_re : Int
  risk_score : Int
  timeline : Option String
  mitigation : Option String
  expected_result : Option String
  reevaluation_needed : Int
  needs_schedule_evaluation : Int
  needs_cost_evaluation : Int
  needs_schedule_evaluation_re : Int
  needs_cost_evaluation_re : Int
  timestamp : String
deriving DecidableEq

/-- The composite score computed at the top of `save_risk` (lines 1659-1669):
scale the pre-mitigation most-likely cost, most-likely schedule and
probability (dict default 0 each) and sum the three scales. -/
def computeRiskScore (d : Draft) : Int :=
  get_cost_score (d.impact_cost_most_likely.getD 0)
  + get_schedule_score (d.impact_schedule_most_likely.getD 0)
  + get_probability_score (d.probability.getD 0)

/-- The INSERT of `save_risk` (lines 1680-1721), field by field.  The score
column takes the local `risk_score` variable; no other inserted column reads
the draft `risk_score` key, so reading the remaining columns from the
pre-update draft is exact. -/
def buildRecord (uid : Int) (uname : String) (ts : String) (d : Draft) (score : Int) :
    RiskRecord :=
  { user_id := uid, username := uname,
    phase := d.phase, object := d.object, category := d.category,
    description := d.description,
    impact_schedule_min := d.impact_schedule_min.getD 0,
    impact_schedule_most_likely := d.impact_schedule_most_likely.getD 0,
    impact_schedule_max := d.impact_schedule_max.getD 0,
    impact_cost_min := d.impact_cost_min.getD 0,
    impact_cost_most_likely := d.impact_cost_most_likely.getD 0,
    impact_cost_max := d.impact_cost_max.getD 0,
    impact_schedule_min_re := d.impact_schedule_min_re.getD 0,
    impact_schedule_most_likely_re := d.impact_schedule_most_likely_re.getD 0,
    impact_schedule_max_re := d.impact_schedule_max_re.getD 0,
    impact_cost_min_re := d.impact_cost_min_re.getD 0,
    impact_cost_most_likely_re := d.impact_cost_most_likely_re.getD 0,
    impact_cost_max_re := d.impact_cost_max_re.getD 0,
    probability := d.probability.getD 0,
    probability_re := d.probability_re.getD 0,
    risk_score := score,
    timeline := d.timeline, mitigation := d.mitigation,
    expected_result := d.expected_result,
    reevaluation_needed := d.reevaluation_needed.getD 0,
    needs_schedule_evaluation := d.needs_schedule_evaluation.getD 0,
    needs_cost_evaluation := d.needs_cost_evaluation.getD 0,
    needs_schedule_evaluation_re := d.needs_schedule_evaluation_re.getD 0,
    needs_cost_evaluation_re := d.needs_cost_evaluation_re.getD 0,
    timestamp := ts }

/-- Outcome of the commit attempt.  `crashed` is the path on which the
except branch itself raises `AttributeError`: the failure reply at line 1725
is sent via `update.message` unconditionally, and `update.message` is `None`
when `save_risk` was entered from the `prob_re_*` callback
(`choose_probability_re`, line 1650), whose `except (IndexError, ValueError)`
does not catch it — the exception escapes to the dispatcher and the user is
shown nothing. -/
inductive SaveOutcome where
  | saved (r : RiskRecord)
  | failed (msg : String)
  | crashed
deriving DecidableEq

/-- Failure message of `save_risk` (lines 1725-1728). -/
def saveErrorMsg : String :=
  "Произошла ошибка при сохранении риска. Пожалуйста, попробуйте снова."

/-- Project the committed record out of an outcome. -/
def savedRecord : SaveOutcome → Option RiskRecord
  | .saved r => some r
  | .failed _ => none
  | .crashed => none

/-- Source `save_risk` (lines 1657-1758): compute the composite score from
the pre-mitigation most-likely values, write it into the draft, then attempt
the durable insert (`insertOk` models whether the INSERT raises).
`hasMessage` tells whether `update.message` is set: true when the commit was
triggered from a text-message handler (`handle_expected_result`,
`handle_custom_probability_re`), false when it was triggered from the
`prob_re_*` button callback, where `update.message` is `None`.  On failure
the handler logs and replies `saveErrorMsg` through `update.message` — which
itself raises `AttributeError` (no message shown) when `hasMessage` is
false.  On success the confirmation is rendered through whichever of
`update.callback_query` / `update.message` is present (lines 1755-1758).
In no case is any draft key cleared; `risk_score` is written into the dict
before the insert is attempted (line 1670), so it is present on every path. -/
def save_risk (uid : Int) (uname : String) (ts : String) (insertOk : Bool)
    (hasMessage : Bool) (d : Draft) : Draft × SaveOutcome :=
  let score := computeRiskScore d
  let d2 := { d with risk_score := some score }
  if insertOk then (d2, .saved (buildRecord uid uname ts d score))
  else if hasMessage then (d2, .failed saveErrorMsg)
  else (d2, .crashed)

/-! ## Back-navigation resolver: `handle_back` (lines 1896-2138)

One constructor per `back_to_*` branch of the dispatcher that touches the
submission draft.  (`back_to_view_phase_selection` manipulates the separate
view-pagination keys and `toggle_subscription` the subscription table; both
are outside the draft vocabulary modelled here.) -/

inductive BackTarget where
  | back_to_menu
  | back_to_phase_selection
  | back_to_object_selection
  | back_to_category_selection
  | back_to_description
  | back_to_schedule_impact
  | back_to_cost_impact
  | back_to_probability
  | back_to_timeline
  | back_to_mitigation_choice
  | back_to_mitigation
  | back_to_mitigation_result
  | back_to_schedule_impact_re
  | back_to_cost_impact_re
  | back_to_probability_re
deriving DecidableEq

/-- Source `handle_back`: each branch pops the listed `user_data` keys and
re-renders the return point.  `subscribed` feeds the menu rendering of
`start` (used only by `back_to_menu`, which changes no draft key). -/
def handle_back (back_data : BackTarget) (subscribed : Bool) (d : Draft) : Draft × Render :=
  match back_data with
  | .back_to_menu => (d, startRender subscribed)
  | .back_to_phase_selection =>
    ({ d with phase := none, awaiting_custom_phase := none }, submitRiskStartRender)
  | .back_to_object_selection =>
    ({ d with object := none, awaiting_custom_object := none }, objectSelectionRender d.phase)
  | .back_to_category_selection =>
    ({ d with category := none, awaiting_custom_category := none },
     categorySelectionRender d.object)
  | .back_to_description =>
    ({ d with description := none, awaiting_description := some true },
     descriptionRender d.category)
  | .back_to_schedule_impact =>
    ({ d with impact_schedule_min := none, impact_schedule_most_likely := none,
              impact_schedule_max := none, needs_schedule_evaluation := none,
              awaiting_schedule_values := none },
     backScheduleChoiceRender)
  | .back_to_cost_impact =>
    ({ d with impact_cost_min := none, impact_cost_most_likely := none,
              impact_cost_max := none, needs_cost_evaluation := none,
              awaiting_cost_values := none },
     backCostChoiceRender)
  | .back_to_probability =>
    ({ d with probability := none, awaiting_custom_probability := none },
     backProbabilityRender)
  | .back_to_timeline =>
    ({ d with timeline := none, awaiting_timeline := some true }, timelineRender)
  | .back_to_mitigation_choice =>
    ({ d with reevaluation_needed := none, awaiting_mitigation := none },
     mitigationChoiceRender)
  | .back_to_mitigation =>
    ({ d with mitigation := none, awaiting_mitigation := some true }, mitigationTextRender)
  | .back_to_mitigation_result =>
    ({ d with expected_result := none, awaiting_expected_result := some true },
     expectedResultRender)
  | .back_to_schedule_impact_re =>
    ({ d with impact_schedule_min_re := none, impact_schedule_most_likely_re := none,
              impact_schedule_max_re := none, needs_schedule_evaluation_re := none,
              awaiting_schedule_values_re := none },
     backScheduleChoiceRenderRe)
  | .back_to_cost_impact_re =>
    ({ d with impact_cost_min_re := none, impact_cost_most_likely_re := none,
              impact_cost_max_re := none, needs_cost_evaluation_re := none,
              awaiting_cost_values_re := none },
     backCostChoiceRenderRe)
  | .back_to_probability_re =>
    ({ d with probability_re := none, awaiting_custom_probability_re := none },
     backProbabilityRenderRe)

/-! ## Notification scheduler callback: `send_daily_reminder` (lines 426-464)

The subscriptions table is modelled as `db : Nat → Option String` giving each
user id its `last_notification` date string; `users` is the snapshot returned
by `get_subscribed_users()`; `sendOk u` tells whether `bot.send_message` to
`u` succeeds or raises.  The result is the updated table and, in iteration
order, the users a reminder was delivered to. -/

def send_daily_reminder (today : String) (sendOk : Nat → Bool) (users : List Nat)
    (db : Nat → Option String) : (Nat → Option String) × List Nat :=
  match users with
  | [] => (db, [])
  | u :: rest =>
    if db u = some today then
      send_daily_reminder today sendOk rest db
    else if sendOk u then
      let db2 := fun v => if v = u then some today else db v
      let r := send_daily_reminder today sendOk rest db2
      (r.1, u :: r.2)
    else
      send_daily_reminder today sendOk rest db

/-! ## Listing: `view_risks_list` (lines 484-603)

A stored risk row as selected by the listing query. -/

structure RiskRow where
  id : Nat
  phase : String
  object : String
  description : String
  risk_score : Int
deriving DecidableEq

/-- Source constant (line 501). -/
def MAX_RISKS_PER_MESSAGE : Nat := 30

/-- The WHERE clause: `selected_phase == "all"` selects everything, otherwise
`WHERE phase = ?`. -/
def matchesPhase (selected_phase : String) (r : RiskRow) : Bool :=
  if selected_phase = "all" then true else r.phase == selected_phase

/-- Non-increasing composite score: the guarantee of `ORDER BY risk_score
DESC`. -/
def scoreDesc (a b : RiskRow) : Prop := b.risk_score ≤ a.risk_score

instance : DecidableRel scoreDesc := fun a b => by
  unfold scoreDesc; infer_instance

/-- The contract of the SQL in `view_risks_list`: `total` is the `COUNT(*)`
of the matching rows, and the page is the `LIMIT 30 OFFSET 30*(page-1)` slice
of some ordering of the matching rows in which scores are non-increasing.
The SQL constrains the order of rows with equal `risk_score` in no way, so
any such ordering is a permitted execution. -/
def view_risks_query (store : List RiskRow) (selected_phase : String) (page : Nat)
    (out : List RiskRow) (total : Nat) : Prop :=
  total = (store.filter (matchesPhase selected_phase)).length ∧
  ∃ full : List RiskRow,
    full.Perm (store.filter (matchesPhase selected_phase)) ∧
    List.Sorted scoreDesc full ∧
    out = (full.drop ((page - 1) * MAX_RISKS_PER_MESSAGE)).take MAX_RISKS_PER_MESSAGE

/-- Score-descending with ties broken by ascending id: the ordering the
specification claims for the listing. -/
def idTieBreakAsc (out : List RiskRow) : Prop :=
  out.Pairwise fun a b =>
    b.risk_score < a.risk_score ∨ (a.risk_score = b.risk_score ∧ a.id < b.id)

/-! ## Helper lemmas about the scale functions -/

lemma get_cost_score_range (c : Int) : 1 ≤ get_cost_score c ∧ get_cost_score c ≤ 5 := by
  unfold get_cost_score; split_ifs <;> omega

lemma get_schedule_score_range (c : Int) :
    1 ≤ get_schedule_score c ∧ get_schedule_score c ≤ 5 := by
  unfold get_schedule_score; split_ifs <;> omega

lemma get_probability_score_range (c : Int) :
    1 ≤ get_probability_score c ∧ get_probability_score c ≤ 5 := by
  unfold get_probability_score; split_ifs <;> omega

lemma get_cost_score_mono {a b : Int} (h : a ≤ b) : get_cost_score a ≤ get_cost_score b := by
  unfold get_cost_score; split_ifs <;> omega

lemma get_schedule_score_mono {a b : Int} (h : a ≤ b) :
    get_schedule_score a ≤ get_schedule_score b := by
  unfold get_schedule_score; split_ifs <;> omega

lemma get_probability_score_mono {a b : Int} (h : a ≤ b) :
    get_probability_score a ≤ get_probability_score b := by
  unfold get_probability_score; split_ifs <;> omega

/-- C2: each of the three scale functions is total on the integers, returns a
value in [1,5], is monotonically non-decreasing, sends every negative input
to bucket 1, and maps the boundary values of the half-open threshold
intervals to the higher bucket: cost 99→1, 100→2, 199→2, 200→3, 499→3,
500→4, 999→4, 1000→5; schedule thresholds 14/45/90/150; probability
thresholds 10/20/50/75. -/
theorem scale_functions_spec :
    (∀ c : Int, 1 ≤ get_cost_score c ∧ get_cost_score c ≤ 5
      ∧ 1 ≤ get_schedule_score c ∧ get_schedule_score c ≤ 5
      ∧ 1 ≤ get_probability_score c ∧ get_probability_score c ≤ 5) ∧
    (∀ a b : Int, a ≤ b → get_cost_score a ≤ get_cost_score b
      ∧ get_schedule_score a ≤ get_schedule_score b
      ∧ get_probability_score a ≤ get_probability_score b) ∧
    (∀ c : Int, c < 0 → get_cost_score c = 1 ∧ get_schedule_score c = 1
      ∧ get_probability_score c = 1) ∧
    (get_cost_score 99 = 1 ∧ get_cost_score 100 = 2 ∧ get_cost_score 199 = 2
      ∧ get_cost_score 200 = 3 ∧ get_cost_score 499 = 3 ∧ get_cost_score 500 = 4
      ∧ get_cost_score 999 = 4 ∧ get_cost_score 1000 = 5) ∧
    (get_schedule_score 13 = 1 ∧ get_schedule_score 14 = 2 ∧ get_schedule_score 44 = 2
      ∧ get_schedule_score 45 = 3 ∧ get_schedule_score 89 = 3 ∧ get_schedule_score 90 = 4
      ∧ get_schedule_score 149 = 4 ∧ get_schedule_score 150 = 5) ∧
    (get_probability_score 9 = 1 ∧ get_probability_score 10 = 2
      ∧ get_probability_score 19 = 2 ∧ get_probability_score 20 = 3
      ∧ get_probability_score 49 = 3 ∧ get_probability_score 50 = 4
      ∧ get_probability_score 74 = 4 ∧ get_probability_score 75 = 5) := by
  refine ⟨?_, ?_, ?_, ?_, ?_, ?_⟩
  · intro c
    exact ⟨(get_cost_score_range c).1, (get_cost_score_range c).2,
      (get_schedule_score_range c).1, (get_schedule_score_range c).2,
      (get_probability_score_range c).1, (get_probability_score_range c).2⟩
  · intro a b h
    exact ⟨get_cost_score_mono h, get_schedule_score_mono h, get_probability_score_mono h⟩
  · intro c h
    refine ⟨?_, ?_, ?_⟩ <;>
      first
        | (unfold get_cost_score; split_ifs <;> omega)
        | (unfold get_schedule_score; split_ifs <;> omega)
        | (unfold get_probability_score; split_ifs <;> omega)
  · decide
  · decide
  · decide

/-- Witness for C2 at concrete inputs. -/
theorem scale_functions_spec_witness :
    ((-5 : Int) ≤ 200) ∧ get_cost_score (-5) ≤ get_cost_score 200 ∧
    ((-5 : Int) < 0) ∧ get_cost_score (-5) = 1 :=
  ⟨by decide, (scale_functions_spec.2.1 (-5) 200 (by decide)).1,
   by decide, (scale_functions_spec.2.2.1 (-5) (by decide)).1⟩

/-- The end-to-end scenario draft of the specification: schedule deferred to
an expert, cost triple 100/300/900, custom probability 80, no re-evaluation. -/
def dScenario : Draft :=
  { phase := some "3", object := some "Скважины", category := some "Бурение",
    description := some "test",
    impact_schedule_min := some 0, impact_schedule_most_likely := some 0,
    impact_schedule_max := some 0, needs_schedule_evaluation := some 1,
    impact_cost_min := some 100, impact_cost_most_likely := some 300,
    impact_cost_max := some 900, needs_cost_evaluation := some 0,
    probability := some 80, timeline := some "квартал", mitigation := some "м",
    expected_result := some "р", reevaluation_needed := some 0 }

/-- Overwrite exactly the post-mitigation ("_re") fields and the
re-evaluation flags of a draft. -/
def setReFields (d : Draft) (a b c e f g p rv ns nc : Option Int) : Draft :=
  { d with
      impact_schedule_min_re := a
      impact_schedule_most_likely_re := b
      impact_schedule_max_re := c
      impact_cost_min_re := e
      impact_cost_most_likely_re := f
      impact_cost_max_re := g
      probability_re := p
      reevaluation_needed := rv
      needs_schedule_evaluation_re := ns
      needs_cost_evaluation_re := nc }

/-- C1: the composite score of the committed record is
`get_schedule_score` + `get_cost_score` + `get_probability_score` of the
pre-mitigation most-likely values, lies in [3,15], and is unchanged by the
"_re" fields and the `reevaluation_needed` flag. -/
theorem save_risk_scores_from_premitigation :
    ∀ (uid : Int) (uname ts : String) (hasMessage : Bool) (d : Draft) (r : RiskRecord),
      (save_risk uid uname ts true hasMessage d).2 = SaveOutcome.saved r →
      r.risk_score = get_schedule_score (d.impact_schedule_most_likely.getD 0)
          + get_cost_score (d.impact_cost_most_likely.getD 0)
          + get_probability_score (d.probability.getD 0)
      ∧ 3 ≤ r.risk_score ∧ r.risk_score ≤ 15
      ∧ ∀ (a b c e f g p rv ns nc : Option Int),
          computeRiskScore (setReFields d a b c e f g p rv ns nc) = computeRiskScore d := by
  intro uid uname ts hasMessage d r h
  simp only [save_risk] at h
  have hr : r = buildRecord uid uname ts d (computeRiskScore d) := by
    simp at h; exact h.symm
  subst hr
  refine ⟨?_, ?_, ?_, ?_⟩
  · show computeRiskScore d = _
    unfold computeRiskScore; omega
  · show 3 ≤ computeRiskScore d
    have h1 := get_cost_score_range (d.impact_cost_most_likely.getD 0)
    have h2 := get_schedule_score_range (d.impact_schedule_most_likely.getD 0)
    have h3 := get_probability_score_range (d.probability.getD 0)
    unfold computeRiskScore; omega
  · show computeRiskScore d ≤ 15
    have h1 := get_cost_score_range (d.impact_cost_most_likely.getD 0)
    have h2 := get_schedule_score_range (d.impact_schedule_most_likely.getD 0)
    have h3 := get_probability_score_range (d.probability.getD 0)
    unfold computeRiskScore; omega
  · intro a b c e f g p rv ns nc
    rfl

/-- Witness for C1: the end-to-end scenario of the specification commits with
composite score 1 + 3 + 5 = 9. -/
theorem save_risk_scores_from_premitigation_witness :
    (save_risk 10 "user" "ts" true true dScenario).2
        = SaveOutcome.saved (buildRecord 10 "user" "ts" dScenario 9) ∧
    (buildRecord 10 "user" "ts" dScenario 9).risk_score = 9 ∧
    3 ≤ (buildRecord 10 "user" "ts" dScenario 9).risk_score ∧
    (buildRecord 10 "user" "ts" dScenario 9).risk_score ≤ 15 :=
  ⟨rfl, rfl,
   (save_risk_scores_from_premitigation 10 "user" "ts" true dScenario _ rfl).2.1,
   (save_risk_scores_from_premitigation 10 "user" "ts" true dScenario _ rfl).2.2.1⟩

/-- The draft state of a user who is being asked for the schedule triple. -/
def dAwaitSchedule : Draft := { awaiting_schedule_values := some true }

/-- C3: with the awaiting-triple marker set, the first three signed integers
found anywhere in the text are taken; fewer than three integers, or a triple
violating min ≤ most-likely ≤ max, is rejected with the draft unchanged;
a valid ordered triple is stored and the step advances. -/
theorem handle_schedule_values_spec :
    ∀ (d : Draft) (text : String), d.awaiting_schedule_values = some true →
      (parse_three_values text = none →
        handle_schedule_values d text = (d, StepResult.rejected tripleFormatErrorMsg)) ∧
      (∀ mn ml mx : Int, parse_three_values text = some (mn, ml, mx) →
        ¬ (mn ≤ ml ∧ ml ≤ mx) →
        handle_schedule_values d text = (d, StepResult.rejected tripleOrderErrorMsg)) ∧
      (∀ mn ml mx : Int, parse_three_values text = some (mn, ml, mx) →
        mn ≤ ml → ml ≤ mx →
        handle_schedule_values d text =
          ({ d with impact_schedule_min := some mn,
                    impact_schedule_most_likely := some ml,
                    impact_schedule_max := some mx,
                    awaiting_schedule_values := some false },
           StepResult.advanced costChoiceRenderPlain)) ∧
      (∀ (n0 n1 n2 : Int) (rest : List Int), findNumbers text = n0 :: n1 :: n2 :: rest →
        parse_three_values text = some (n0, n1, n2)) := by
  intro d text hw
  refine ⟨?_, ?_, ?_, ?_⟩
  · intro hp
    simp [handle_schedule_values, hw, hp]
  · intro mn ml mx hp hord
    simp [handle_schedule_values, hw, hp, hord]
  · intro mn ml mx hp h1 h2
    simp [handle_schedule_values, hw, hp, h1, h2]
  · intro n0 n1 n2 rest hf
    simp [parse_three_values, hf]

/-- Witness for C3: the three sample inputs given in the specification. -/
theorem handle_schedule_values_spec_witness :
    handle_schedule_values dAwaitSchedule "5 3 9"
        = (dAwaitSchedule, StepResult.rejected tripleOrderErrorMsg) ∧
    handle_schedule_values dAwaitSchedule "only one number 4"
        = (dAwaitSchedule, StepResult.rejected tripleFormatErrorMsg) ∧
    handle_schedule_values dAwaitSchedule "10, 20, 30"
        = ({ dAwaitSchedule with
              impact_schedule_min := some 10,
              impact_schedule_most_likely := some 20, impact_schedule_max := some 30,
              awaiting_schedule_values := some false },
           StepResult.advanced costChoiceRenderPlain) :=
  ⟨(handle_schedule_values_spec dAwaitSchedule "5 3 9" rfl).2.1 5 3 9 (by decide)
      (by decide),
   (handle_schedule_values_spec dAwaitSchedule "only one number 4" rfl).1 (by decide),
   (handle_schedule_values_spec dAwaitSchedule "10, 20, 30" rfl).2.2.1 10 20 30
      (by decide) (by decide) (by decide)⟩

/-- The draft state of a user who is being asked for the free-text
description. -/
def dAwaitDescription : Draft := { awaiting_description := some true }

/-- A first submission that went through re-evaluation: post-mitigation
fields are populated. -/
def dFirstWithRe : Draft :=
  { dScenario with
    reevaluation_needed := some 1,
    impact_schedule_min_re := some 7, impact_schedule_most_likely_re := some 8,
    impact_schedule_max_re := some 9, needs_schedule_evaluation_re := some 0,
    impact_cost_min_re := some 0, impact_cost_most_likely_re := some 0,
    impact_cost_max_re := some 0, needs_cost_evaluation_re := some 0,
    probability_re := some 60 }

/-- The draft as it stands right after the first successful commit (the
re-evaluated submission commits from the `prob_re_5` button callback, where
`update.message` is `None`). -/
def dAfterCommit : Draft := (save_risk 10 "user" "t1" true false dFirstWithRe).1

/-- The second submission of the same user: the forward path overwrites the
identity fields and chooses "without re-evaluation", but no step of that
path touches the "_re" keys. -/
def dSecond : Draft :=
  { dAfterCommit with
    description := some "второй риск", reevaluation_needed := some 0 }

/-- C4: contrary to the specification, a successful commit does not destroy
the draft (every field survives, only `risk_score` is added), returning to
the menu clears nothing either, and the stale "_re" fields of the committed
draft leak into the record of a subsequent submission that never entered
re-evaluation. -/
theorem commit_and_menu_leave_draft :
    (savedRecord (save_risk 10 "user" "t1" true false dFirstWithRe).2).isSome = true ∧
    dAfterCommit = { dFirstWithRe with risk_score := some (computeRiskScore dFirstWithRe) } ∧
    dAfterCommit.phase = some "3" ∧
    dAfterCommit.impact_schedule_min_re = some 7 ∧
    (handle_back BackTarget.back_to_menu true dAfterCommit).1 = dAfterCommit ∧
    (savedRecord (save_risk 10 "user" "t2" true true dSecond).2).map
        (fun r => (r.reevaluation_needed, r.impact_schedule_min_re))
      = some (0, 7) :=
  ⟨rfl, rfl, rfl, rfl, rfl, rfl⟩

/-- C5: the `back_to_schedule_impact` branch clears exactly the schedule
triple, its deferral flag and the awaiting-triple marker, and leaves phase,
object, category and description (and every other field) unchanged. -/
theorem back_to_schedule_impact_clears_exactly :
    ∀ (subscribed : Bool) (d : Draft),
      handle_back BackTarget.back_to_schedule_impact subscribed d =
        ({ d with
            impact_schedule_min := none, impact_schedule_most_likely := none,
            impact_schedule_max := none, needs_schedule_evaluation := none,
            awaiting_schedule_values := none },
         backScheduleChoiceRender) ∧
      (handle_back BackTarget.back_to_schedule_impact subscribed d).1.phase = d.phase ∧
      (handle_back BackTarget.back_to_schedule_impact subscribed d).1.object = d.object ∧
      (handle_back BackTarget.back_to_schedule_impact subscribed d).1.category
        = d.category ∧
      (handle_back BackTarget.back_to_schedule_impact subscribed d).1.description
        = d.description :=
  fun _ _ => ⟨rfl, rfl, rfl, rfl, rfl⟩

/-- C6: contrary to the specification, back-navigation does not re-render
identically to the forward path: the `back_to_schedule_impact` prompt drops
the unit text of the forward prompt (same options), and the
`back_to_probability` option list labels band 4 "60-75%" where every forward
rendering labels it "50-75%" (same prompt). -/
theorem back_rerender_differs_from_forward :
    (get_description dAwaitDescription "test").2
        = StepResult.advanced scheduleChoiceRenderForward ∧
    (handle_back BackTarget.back_to_schedule_impact true dScenario).2
        = backScheduleChoiceRender ∧
    backScheduleChoiceRender.options = scheduleChoiceRenderForward.options ∧
    backScheduleChoiceRender.prompt ≠ scheduleChoiceRenderForward.prompt ∧
    (no_impact_cost dScenario).2 = probabilityRenderForward ∧
    (handle_back BackTarget.back_to_probability true dScenario).2
        = backProbabilityRender ∧
    backProbabilityRender.prompt = probabilityRenderForward.prompt ∧
    backProbabilityRender.options ≠ probabilityRenderForward.options :=
  ⟨rfl, rfl, rfl, by decide, rfl, rfl, rfl, by decide⟩

/-- C7: when the durable insert raises, the generic failure message is shown
only on the text-message paths; a commit entered from the `prob_re_*` band
callback has `update.message = None`, so the except branch itself raises
`AttributeError` and the user is shown nothing.  On both failure paths no
draft field is lost (the draft equals the input draft plus the derived
score), and re-invoking the commit on the preserved draft succeeds with
exactly the record the first commit would have written, with no prior step
re-entered. -/
theorem save_risk_failure_paths :
    ∀ (uid : Int) (uname ts ts2 : String) (d : Draft),
      (save_risk uid uname ts false true d).2 = SaveOutcome.failed saveErrorMsg ∧
      (save_risk uid uname ts false false d).2 = SaveOutcome.crashed ∧
      (save_risk uid uname ts false true d).1
        = { d with risk_score := some (computeRiskScore d) } ∧
      (save_risk uid uname ts false false d).1
        = { d with risk_score := some (computeRiskScore d) } ∧
      (save_risk uid uname ts false true d).1.phase = d.phase ∧
      (save_risk uid uname ts false true d).1.description = d.description ∧
      (save_risk uid uname ts false true d).1.impact_cost_most_likely
        = d.impact_cost_most_likely ∧
      (save_risk uid uname ts false true d).1.probability = d.probability ∧
      (save_risk uid uname ts false true d).1.mitigation = d.mitigation ∧
      save_risk uid uname ts2 true true ((save_risk uid uname ts false true d).1)
        = ({ d with risk_score := some (computeRiskScore d) },
           SaveOutcome.saved (buildRecord uid uname ts2 d (computeRiskScore d))) ∧
      save_risk uid uname ts2 true false ((save_risk uid uname ts false false d).1)
        = ({ d with risk_score := some (computeRiskScore d) },
           SaveOutcome.saved (buildRecord uid uname ts2 d (computeRiskScore d))) :=
  fun _ _ _ _ _ => ⟨rfl, rfl, rfl, rfl, rfl, rfl, rfl, rfl, rfl, rfl, rfl⟩

/-- The users that `send_daily_reminder` delivers to are exactly the
subscribed users not yet notified today whose send succeeds, in order. -/
lemma send_daily_reminder_sent_eq (today : String) (sendOk : Nat → Bool) :
    ∀ (users : List Nat) (db : Nat → Option String), users.Nodup →
      (send_daily_reminder today sendOk users db).2
        = users.filter fun u => !(db u == some today) && sendOk u := by
  intro users
  induction users with
  | nil => intro db _; rfl
  | cons u rest ih =>
    intro db hnd
    obtain ⟨hu, hrest⟩ := List.nodup_cons.mp hnd
    unfold send_daily_reminder
    by_cases h1 : db u = some today
    · simp [h1, ih db hrest, List.filter_cons]
    · by_cases h2 : sendOk u
      · have hfilter :
            rest.filter (fun v => !((if v = u then some today else db v) == some today)
                && sendOk v)
              = rest.filter fun v => !(db v == some today) && sendOk v := by
          apply List.filter_congr
          intro v hv
          have : v ≠ u := fun he => hu (he ▸ hv)
          simp [this]
        simp [h1, h2, ih _ hrest, hfilter, List.filter_cons]
      · simp [h1, h2, ih db hrest, List.filter_cons]

/-- After the callback, the `last_notification` of a user is today exactly when a
reminder was delivered to them in this run; otherwise it is untouched. -/
lemma send_daily_reminder_db_eq (today : String) (sendOk : Nat → Bool) :
    ∀ (users : List Nat) (db : Nat → Option String) (v : Nat),
      (send_daily_reminder today sendOk users db).1 v
        = if v ∈ (send_daily_reminder today sendOk users db).2 then some today
          else db v := by
  intro users
  induction users with
  | nil => intro db v; rfl
  | cons u rest ih =>
    intro db v
    unfold send_daily_reminder
    by_cases h1 : db u = some today
    · rw [if_pos h1]
      exact ih db v
    · by_cases h2 : sendOk u
      · rw [if_neg h1, if_pos h2]
        rw [ih]
        by_cases hv : v = u
        · subst hv
          by_cases hm : v ∈ (send_daily_reminder today sendOk rest
              fun w => if w = v then some today else db w).2 <;>
            simp [hm]
        · simp [List.mem_cons, hv]
      · rw [if_neg h1, if_neg h2]
        exact ih db v

/-- C8: per run, a subscribed user already notified today gets nothing, a
successful send stamps today, a delivery failure for one user never aborts the
rest (delivery is exactly to the not-yet-notified users whose send succeeds),
and a second firing on the same date sends nothing to the users notified by
the first. -/
theorem send_daily_reminder_spec :
    ∀ (today : String) (sendOk sendOk2 : Nat → Bool) (users : List Nat)
      (db : Nat → Option String), users.Nodup →
      ((send_daily_reminder today sendOk users db).2
        = users.filter fun u => !(db u == some today) && sendOk u) ∧
      (∀ u ∈ users, db u = some today →
        u ∉ (send_daily_reminder today sendOk users db).2) ∧
      (∀ u ∈ users, ¬ db u = some today → sendOk u = true →
        u ∈ (send_daily_reminder today sendOk users db).2) ∧
      (∀ v : Nat, (send_daily_reminder today sendOk users db).1 v
        = if v ∈ (send_daily_reminder today sendOk users db).2 then some today
          else db v) ∧
      (∀ u ∈ (send_daily_reminder today sendOk users db).2,
        (send_daily_reminder today sendOk users db).1 u = some today) ∧
      (∀ u ∈ (send_daily_reminder today sendOk users db).2,
        u ∉ (send_daily_reminder today sendOk2 users
              (send_daily_reminder today sendOk users db).1).2) := by
  intro today sendOk sendOk2 users db hnd
  have hsent := send_daily_reminder_sent_eq today sendOk users db hnd
  have hdb := send_daily_reminder_db_eq today sendOk users db
  refine ⟨hsent, ?_, ?_, hdb, ?_, ?_⟩
  · intro u hu hd
    rw [hsent]
    simp [List.mem_filter, hd]
  · intro u hu hd hok
    rw [hsent]
    simp [List.mem_filter, hd, hok, hu]
  · intro u hu
    rw [hdb u, if_pos hu]
  · intro u hu
    have hstamped : (send_daily_reminder today sendOk users db).1 u = some today := by
      rw [hdb u, if_pos hu]
    rw [send_daily_reminder_sent_eq today sendOk2 users _ hnd]
    simp [List.mem_filter, hstamped]

/-- Witness for C8: three subscribers, user 3 already notified today, the
send to user 2 fails; exactly user 1 receives the reminder. -/
theorem send_daily_reminder_spec_witness :
    List.Nodup [1, 2, 3] ∧
    (send_daily_reminder "2026-10-12" (fun u => !(u == 2)) [1, 2, 3]
        (fun u => if u = 3 then some "2026-10-12" else none)).2 = [1] := by
  refine ⟨by decide, ?_⟩
  rw [(send_daily_reminder_spec "2026-10-12" (fun u => !(u == 2)) (fun _ => true)
      [1, 2, 3] (fun u => if u = 3 then some "2026-10-12" else none) (by decide)).1]
  decide

/-- Two stored risks with equal composite score, ids 1 and 2. -/
def rowA : RiskRow := { id := 1, phase := "2", object := "o", description := "a", risk_score := 5 }

/-- Second row of the tie. -/
def rowB : RiskRow := { id := 2, phase := "2", object := "o", description := "b", risk_score := 5 }

/-- Counterexample for C9: `ORDER BY risk_score DESC` carries no identifier
tie-break, so the execution returning the id-descending order [rowB, rowA]
satisfies the query contract while violating the claimed ordering. -/
theorem view_risks_query_tie_not_id_ordered :
    view_risks_query [rowA, rowB] "all" 1 [rowB, rowA] 2 ∧
    ¬ idTieBreakAsc [rowB, rowA] := by
  constructor
  · refine ⟨by decide, [rowB, rowA], ?_, ?_, ?_⟩
    · decide
    · decide
    · decide
  · intro h
    unfold idTieBreakAsc at h
    have := List.rel_of_pairwise_cons h (List.mem_singleton.mpr rfl)
    revert this
    decide

/-- C9 amended: the listing returns the matching records with composite
scores in non-increasing order together with the total count of matching
records; the order of records with equal scores is not constrained. -/
theorem view_risks_query_sorted_and_counted :
    ∀ (store : List RiskRow) (selected_phase : String) (page : Nat)
      (out : List RiskRow) (total : Nat),
      view_risks_query store selected_phase page out total →
      List.Sorted scoreDesc out ∧
      total = (store.filter (matchesPhase selected_phase)).length := by
  rintro store selected_phase page out total ⟨htotal, full, hperm, hsort, hout⟩
  refine ⟨?_, htotal⟩
  subst hout
  exact hsort.sublist ((List.take_sublist _ _).trans (List.drop_sublist _ _))

/-- Witness for C9 at a concrete valid execution. -/
theorem view_risks_query_sorted_and_counted_witness :
    List.Sorted scoreDesc [rowA, rowB] ∧
    2 = (([rowA, rowB] : List RiskRow).filter (matchesPhase "all")).length :=
  view_risks_query_sorted_and_counted [rowA, rowB] "all" 1 [rowA, rowB] 2
    ⟨by decide, [rowA, rowB], by decide, by decide, by decide⟩

/-- The empty per-user dict. -/
def emptyDraft : Draft := {}

/-- C10: every enumerated probability band stores its fixed
`PROBABILITY_MAPPING` value from {10, 15, 27, 47, 60}, each of which scores
at most 4; the ">75%" band stores 60 (score 4); and within the custom-entry
range [0,100] the probability scale reaches 5 exactly for integers ≥ 75. -/
theorem probability_buttons_spec :
    (∀ (d : Draft) (k : Nat) (v : Int), PROBABILITY_MAPPING k = some v →
      (choose_probability d k).1
          = { d with probability := some v, awaiting_timeline := some true } ∧
      v ∈ ([10, 15, 27, 47, 60] : List Int) ∧
      get_probability_score v ≤ 4) ∧
    PROBABILITY_MAPPING 5 = some 60 ∧
    get_probability_score 60 = 4 ∧
    (∀ p : Int, 0 ≤ p → p ≤ 100 → (get_probability_score p = 5 ↔ 75 ≤ p)) ∧
    (∀ (d : Draft) (p : Int), d.awaiting_custom_probability = some true →
      0 ≤ p → p ≤ 100 →
      (handle_custom_probability d (some p)).1.probability = some p) := by
  refine ⟨?_, rfl, by decide, ?_, ?_⟩
  · intro d k v h
    match k with
    | 1 => exact (Option.some.inj h) ▸ ⟨rfl, by decide, by decide⟩
    | 2 => exact (Option.some.inj h) ▸ ⟨rfl, by decide, by decide⟩
    | 3 => exact (Option.some.inj h) ▸ ⟨rfl, by decide, by decide⟩
    | 4 => exact (Option.some.inj h) ▸ ⟨rfl, by decide, by decide⟩
    | 5 => exact (Option.some.inj h) ▸ ⟨rfl, by decide, by decide⟩
    | 0 => exact absurd h (by simp [PROBABILITY_MAPPING])
    | (n + 6) => exact absurd h (by simp [PROBABILITY_MAPPING])
  · intro p h1 h2
    unfold get_probability_score
    split_ifs <;> omega
  · intro d p hw h1 h2
    have hrange : ¬ (p < 0 ∨ p > 100) := by omega
    simp [handle_custom_probability, hw, hrange]

/-- Witness for C10 at band 5. -/
theorem probability_buttons_spec_witness :
    (choose_probability emptyDraft 5).1
        = { emptyDraft with probability := some 60, awaiting_timeline := some true } ∧
    get_probability_score 60 ≤ 4 ∧
    (get_probability_score 80 = 5 ↔ (75 : Int) ≤ 80) :=
  ⟨(probability_buttons_spec.1 emptyDraft 5 60 rfl).1,
   (probability_buttons_spec.1 emptyDraft 5 60 rfl).2.2,
   probability_buttons_spec.2.2.2.1 80 (by decide) (by decide)⟩
